import Mathlib

/-!
Shallow embedding of the terminal color / capability subsystem and the
stream-interception layer of the python-progressbar repository
(`progressbar/terminal/base.py` and `progressbar/utils.py`).

Python floats are modelled as rationals, Python ints as `Int`/`Nat`, and
fallible code (attribute errors on missing values, type errors) as
`Option`/`Except`.
-/

set_option allowUnsafeReducibility true in
attribute [semireducible] Rat.add Rat.sub Rat.mul Rat.inv

namespace Progressbar

/-- Python `int(x)` applied to a float: truncation toward zero, modelled on ℚ. -/
def pyInt (q : ℚ) : ℤ := if q < 0 then ⌈q⌉ else ⌊q⌋

/-- Python `round(x)` applied to a float: round half to even. -/
def pyRound (q : ℚ) : ℤ :=
  let f := ⌊q⌋
  let r := q - f
  if r < 1/2 then f
  else if 1/2 < r then f + 1
  else if f % 2 = 0 then f else f + 1

/-- Python truthiness of an optional string (`None` and the empty string are falsy). -/
def strTruthy : Option String → Bool
  | none => false
  | some s => s ≠ ""

/-- Python truthiness of an optional int (`None` and `0` are falsy). -/
def intTruthy : Option ℤ → Bool
  | none => false
  | some n => n ≠ 0

/-- Python `str(x)` applied to an optional string: `str(None)` is the text `None`. -/
def pyStr : Option String → String
  | none => "None"
  | some s => s

/-- `ColorSupport(enum.IntEnum)` from `progressbar/terminal/base.py`. -/
inductive ColorSupport where
  | NONE
  | XTERM
  | XTERM_256
  | XTERM_TRUECOLOR
deriving DecidableEq, Repr

/-- The `IntEnum` integer value of each `ColorSupport` member. -/
def ColorSupport.val : ColorSupport → ℕ
  | .NONE => 0
  | .XTERM => 16
  | .XTERM_256 => 256
  | .XTERM_TRUECOLOR => 16777216

/-- Python `max(a, b)` on two `IntEnum` members: `b` is returned only when it
compares strictly greater than `a`. -/
def pymax (a b : ColorSupport) : ColorSupport := if a.val < b.val then b else a

/-- A process environment, as read through `os.environ.get`. -/
abbrev Env := String → Option String

/-- Python `needle in haystack` on strings, as a check on character lists. -/
def containsSub (pat l : List Char) : Bool :=
  l.tails.any fun t => pat.isPrefixOf t

/-- The scan over `variables` in `ColorSupport.from_env`: unset variables are
skipped (`continue`), a `truecolor`/`24bit` value breaks out immediately with
truecolor support, a value containing `256` raises the running maximum to
256-color support, and a value equal to `xterm` raises it to 16-color support. -/
def ColorSupport.scanVars : ColorSupport → List (Option String) → ColorSupport
  | support, [] => support
  | support, none :: rest => scanVars support rest
  | support, some value :: rest =>
    if value = "truecolor" ∨ value = "24bit" then .XTERM_TRUECOLOR
    else if containsSub "256".data value.data then
      scanVars (pymax .XTERM_256 support) rest
    else if value = "xterm" then scanVars (pymax .XTERM support) rest
    else scanVars support rest

/-- `ColorSupport.from_env`: `JUPYTER_COLUMNS`/`JUPYTER_LINES` force truecolor,
otherwise the four environment variables are scanned in order. -/
def ColorSupport.from_env (env : Env) : ColorSupport :=
  if strTruthy (env "JUPYTER_COLUMNS") ∨ strTruthy (env "JUPYTER_LINES") then
    .XTERM_TRUECOLOR
  else
    scanVars .NONE
      [env "FORCE_COLOR", env "PROGRESSBAR_ENABLE_COLORS",
       env "COLORTERM", env "TERM"]

/-- The `RGB` named tuple: red, green and blue channels (Python ints). -/
structure RGB where
  red : ℤ
  green : ℤ
  blue : ℤ
deriving DecidableEq, Repr

/-- `RGB.to_ansi_16`: truncating division by 255 per channel, packed as bits
(for channels in range each quotient is 0 or 1, so the shifts and bitwise ors
coincide with this arithmetic form). -/
def RGB.to_ansi_16 (c : RGB) : ℤ :=
  let red := pyInt ((c.red : ℚ) / 255)
  let green := pyInt ((c.green : ℚ) / 255)
  let blue := pyInt ((c.blue : ℚ) / 255)
  blue * 4 + green * 2 + red

/-- `RGB.to_ansi_256`: each channel is scaled to 0–5 by rounding division. -/
def RGB.to_ansi_256 (c : RGB) : ℤ :=
  let red := pyRound ((c.red : ℚ) / 255 * 5)
  let green := pyRound ((c.green : ℚ) / 255 * 5)
  let blue := pyRound ((c.blue : ℚ) / 255 * 5)
  16 + 36 * red + 6 * green + blue

/-- `RGB.interpolate(end, step)`: linear interpolation per channel, truncated
back to an int. -/
def RGB.interpolate (c e : RGB) (step : ℚ) : RGB :=
  ⟨pyInt ((c.red : ℚ) + ((e.red : ℚ) - (c.red : ℚ)) * step),
   pyInt ((c.green : ℚ) + ((e.green : ℚ) - (c.green : ℚ)) * step),
   pyInt ((c.blue : ℚ) + ((e.blue : ℚ) - (c.blue : ℚ)) * step)⟩

/-- The `HLS` named tuple: hue, lightness and saturation (Python floats). -/
structure HLS where
  hue : ℚ
  lightness : ℚ
  saturation : ℚ
deriving DecidableEq, Repr

/-- `HLS.interpolate(end, step)`: linear interpolation per component. -/
def HLS.interpolate (h e : HLS) (step : ℚ) : HLS :=
  ⟨h.hue + (e.hue - h.hue) * step,
   h.lightness + (e.lightness - h.lightness) * step,
   h.saturation + (e.saturation - h.saturation) * step⟩

/-- The `Color` named tuple: rgb plus optional hls, name and xterm index. -/
structure Color where
  rgb : RGB
  hls : Option HLS
  name : Option String
  xterm : Option ℤ
deriving DecidableEq, Repr

/-- `Color.ansi`, as a function of the process-wide `color_support` value:
truecolor support yields a `2;R;G;B` payload; otherwise a truthy `xterm`
index is used verbatim, or the 256- or 16-color downsample of the rgb value,
and with no support at all the payload is `None`. -/
def Color.ansi (support : ColorSupport) (c : Color) : Option String :=
  if support = .XTERM_TRUECOLOR then
    some ("2;" ++ toString c.rgb.red ++ ";" ++ toString c.rgb.green ++ ";" ++
      toString c.rgb.blue)
  else if intTruthy c.xterm then some ("5;" ++ toString (c.xterm.getD 0))
  else if support = .XTERM_256 then some ("5;" ++ toString c.rgb.to_ansi_256)
  else if support = .XTERM then some ("5;" ++ toString c.rgb.to_ansi_16)
  else none

/-- `Color.interpolate(end, step)`: interpolates rgb and hls, and takes name
and xterm from the start color for `step < 0.5`, else from the end color.
Accessing `hls` on a color that carries none raises in Python (`None` has no
`interpolate`/`hue`), modelled by `none`. -/
def Color.interpolate (c e : Color) (step : ℚ) : Option Color :=
  match c.hls, e.hls with
  | some ch, some eh =>
    some ⟨c.rgb.interpolate e.rgb step, some (ch.interpolate eh step),
          if step < 1/2 then c.name else e.name,
          if step < 1/2 then c.xterm else e.xterm⟩
  | _, _ => none

/-- The `Colors.interpolate` classmethod. -/
def Colors.interpolate (a b : Color) (step : ℚ) : Option Color :=
  a.interpolate b step

/-- A progress value as passed to `ColorGradient.get_color`: either a float or
one of the `base.Undefined` / `base.UnknownLength` sentinels. -/
inductive PValue where
  | undefined
  | unknownLength
  | num (v : ℚ)

/-- Models the external `python_utils.converters.remap(value, old_min,
old_max, new_min, new_max)` helper: linear remapping of `value` from the old
range onto the new range. -/
def remap (value old_min old_max new_min new_max : ℚ) : ℚ :=
  new_min + (value - old_min) * (new_max - new_min) / (old_max - old_min)

/-- `ColorGradient`: an ordered sequence of colors (the constructor asserts it
is non-empty) plus an optional interpolation function (a Python function is
truthy, `None` is falsy).  The interpolation function returns `none` when it
raises (interpolating colors that carry no hls). -/
structure ColorGradient where
  colors : List Color
  colors_ne : colors ≠ []
  interpolate : Option (Color → Color → ℚ → Option Color)

/-- `ColorGradient.get_color`: map a value from 0 to 1 to a color.  Sentinel
or non-positive values give the first color, values at least 1 the last one;
otherwise the value selects a segment and an intra-segment step and the two
bounding colors are interpolated (or, with no interpolation function, the
nearest color by rounding is picked).  The list lookups use the first color
as a default, which is never reached: the computed index is in range.
`none` records an exception escaping from the interpolation function. -/
def ColorGradient.get_color (g : ColorGradient) (value : PValue) : Option Color :=
  let first := g.colors.head g.colors_ne
  match value with
  | .undefined => some first
  | .unknownLength => some first
  | .num v =>
    if v ≤ 0 then some first
    else if 1 ≤ v then some (g.colors.getLast g.colors_ne)
    else
      let max_color_idx : ℕ := g.colors.length - 1
      if max_color_idx = 0 then some first
      else
        match g.interpolate with
        | some f =>
          let index : ℤ := pyRound (remap v 0 1 0 ((max_color_idx : ℚ) - 1))
          let step : ℚ :=
            remap v ((index : ℚ) / (max_color_idx : ℚ))
              (((index : ℚ) + 1) / (max_color_idx : ℚ)) 0 1
          f (g.colors.getD index.toNat first)
            (g.colors.getD (index.toNat + 1) first) step
        | none =>
          some (g.colors.getD (pyRound (remap v 0 1 0 (max_color_idx : ℚ))).toNat first)

/-- `OptionalColor = Union[Color, ColorGradient, None]`. -/
inductive OptionalColor where
  | none
  | color (c : Color)
  | gradient (g : ColorGradient)

/-- The module-level `get_color(value, color)`: evaluates a gradient at
`value` and passes plain colors and `None` through.  The outer `Option` is
the exception monad (a gradient lookup can raise); the inner one is Python's
`None`. -/
def get_color (value : ℚ) (color : OptionalColor) : Option (Option Color) :=
  match color with
  | .none => some none
  | .color c => some (some c)
  | .gradient g => (g.get_color (.num value)).map some

/-- The escape character `ESC`. -/
def ESC : String := "\x1b"

/-- `CSI.__call__`: renders `ESC [ args code`, joining the stringified
arguments with a semicolon and falling back to the default arguments when
none are supplied (an empty Python tuple is falsy). -/
def CSI.call (code : String) (default_args args : List String) : String :=
  ESC ++ "[" ++
    String.intercalate ";" (if args.isEmpty then default_args else args) ++ code

/-- `SGR.__call__` for a plain style pair: wrap the text between the start and
end SGR sequences. -/
def SGR.apply (start_code end_code : ℤ) (text : String) : String :=
  CSI.call "m" [] [toString start_code] ++ text ++
    CSI.call "m" [] [toString end_code]

/-- `SGRColor.__call__`: the start template interleaves `str(color.ansi)` as a
second argument; the end template is the plain SGR one. -/
def SGRColor.apply (c : Color) (start_code end_code : ℤ) (support : ColorSupport)
    (text : String) : String :=
  CSI.call "m" [] [toString start_code, pyStr (c.ansi support)] ++ text ++
    CSI.call "m" [] [toString end_code]

/-- `Color.fg` applied to a text: an `SGRColor` with codes 38/39. -/
def Color.fg (c : Color) (support : ColorSupport) (text : String) : String :=
  SGRColor.apply c 38 39 support text

/-- `Color.bg` applied to a text: an `SGRColor` with codes 48/49. -/
def Color.bg (c : Color) (support : ColorSupport) (text : String) : String :=
  SGRColor.apply c 48 49 support text

/-- `Color.underline` applied to a text: an `SGRColor` with codes 58/59. -/
def Color.underlineStyle (c : Color) (support : ColorSupport) (text : String) : String :=
  SGRColor.apply c 58 59 support text

/-- `apply_colors(text, percentage, fg=..., bg=..., fg_none=..., bg_none=...)`.
With neither fg nor bg set the text is returned unchanged; with no percentage
the static colors are applied; otherwise fg and bg are resolved at
`percentage * 0.01` and applied, foreground first, background second.
A `none` result records an exception escaping from a gradient lookup. -/
def apply_colors (support : ColorSupport) (text : String) (percentage : Option ℚ)
    (fg bg : OptionalColor) (fg_none bg_none : Option Color) : Option String :=
  match fg, bg with
  | .none, .none => some text
  | _, _ =>
    match percentage with
    | none =>
      let text := match fg_none with
        | some c => c.fg support text
        | none => text
      let text := match bg_none with
        | some c => c.bg support text
        | none => text
      some text
    | some p => do
      let fgc ← get_color (p * (1/100)) fg
      let bgc ← get_color (p * (1/100)) bg
      let text := match fgc with
        | some c => c.fg support text
        | none => text
      let text := match bgc with
        | some c => c.bg support text
        | none => text
      pure text

/-- The character class at the end of the pattern of `no_color`: a final byte
in the range from the at sign to the tilde. -/
def isCsiFinal (c : Char) : Bool := '@' ≤ c && c ≤ '~'

/-- The lazy tail of the pattern of `no_color` after the introducer: consume
the shortest run of non-newline characters up to a character of the final
class (a dot in a Python regex does not match a newline).  Returns the number
of characters the match consumes past the introducer, or `none` when no match
starts here. -/
def findCsiEnd (isFinal : Char → Bool) : List Char → Option ℕ
  | [] => none
  | c :: rest =>
    if isFinal c then some 1
    else if c = '\n' then none
    else (findCsiEnd isFinal rest).map (· + 1)

/-- `re.sub` of the `no_color` pattern with the empty replacement, on a
character list: leftmost, non-overlapping, lazy matches of
escape-bracket-body sequences are removed; where the pattern fails to match,
scanning resumes one character further.  The fuel argument is seeded with
the length of the list and never runs out, since every step consumes at
least one character; it only makes the recursion structural. -/
def stripAnsiAux (esc lb : Char) (isFinal : Char → Bool) : ℕ → List Char → List Char
  | _, [] => []
  | 0, l => l
  | fuel + 1, c :: rest =>
    if c = esc then
      match rest with
      | c2 :: rest2 =>
        if c2 = lb then
          match findCsiEnd isFinal rest2 with
          | some k => stripAnsiAux esc lb isFinal fuel (rest2.drop k)
          | none => c :: stripAnsiAux esc lb isFinal fuel (c2 :: rest2)
        else c :: stripAnsiAux esc lb isFinal fuel (c2 :: rest2)
      | [] => [c]
    else c :: stripAnsiAux esc lb isFinal fuel rest

/-- The substitution over a whole character list. -/
def stripAnsi (esc lb : Char) (isFinal : Char → Bool) (l : List Char) : List Char :=
  stripAnsiAux esc lb isFinal l.length l

/-- A Python value passed to `no_color`: a text string, a byte string (the
bytes of text, modelled at character granularity since both regexes agree),
or anything else. -/
inductive PyValue where
  | str (s : String)
  | bytes (b : List Char)
  | other
deriving DecidableEq

/-- Python `len` on the values `no_color` produces. -/
def pyLen : PyValue → ℕ
  | .str s => s.length
  | .bytes b => b.length
  | .other => 0

/-- `no_color(value)`: strip ANSI escape sequences from byte strings and text
strings; anything else raises a `TypeError`. -/
def no_color : PyValue → Except String PyValue
  | .bytes b => .ok (.bytes (stripAnsi '\x1b' '[' isCsiFinal b))
  | .str s => .ok (.str (String.mk (stripAnsi '\x1b' '[' isCsiFinal s.data)))
  | .other => .error "TypeError"

/-- `len_color(value)`: the length of the value without ANSI escape codes. -/
def len_color (v : PyValue) : Except String ℕ :=
  (no_color v).map pyLen

/-- The underlying real stream (`self.target` of a `WrappingIO`), modelled by
its accumulated written content, a flush counter and a closed flag. -/
structure Target where
  written : String
  flushCount : ℕ
  closed : Bool
deriving DecidableEq, Repr

/-- `target.flush()`. -/
def Target.flush (t : Target) : Target := { t with flushCount := t.flushCount + 1 }

/-- The `WrappingIO` stream wrapper state.  Listeners are identities held in
a Python set; a set iterates each member exactly once. -/
structure WrappingIO where
  buffer : String
  target : Target
  capturing : Bool
  listeners : List ℕ
  needs_clear : Bool
deriving DecidableEq, Repr

/-- `WrappingIO.__init__(target, capturing=False, listeners=None)`. -/
def WrappingIO.init (target : Target) (listeners : List ℕ) : WrappingIO :=
  ⟨"", target, false, listeners, false⟩

/-- `WrappingIO.flush_target`: flush the target unless it is closed (the
`flush` attribute of a real stream is a truthy bound method). -/
def WrappingIO.flush_target (w : WrappingIO) : WrappingIO :=
  if w.target.closed = false then { w with target := w.target.flush } else w

/-- Python `'\n' in value`. -/
def hasNewline (s : String) : Bool := s.data.contains '\n'

/-- `WrappingIO.write(value)`: while capturing, append to the in-memory
buffer, and on a newline set `needs_clear` and call `update()` on every
listener; while not capturing, write through to the target, and on a newline
flush it.  Returns the new state, the write count, and the listeners whose
`update()` ran, in order. -/
def WrappingIO.write (w : WrappingIO) (value : String) :
    WrappingIO × ℕ × List ℕ :=
  if w.capturing then
    let w := { w with buffer := w.buffer ++ value }
    if hasNewline value then
      ({ w with needs_clear := true }, value.length, w.listeners)
    else (w, value.length, [])
  else
    let w := { w with target := { w.target with written := w.target.written ++ value } }
    if hasNewline value then ( WrappingIO.flush_target w, value.length, [])
    else (w, value.length, [])

/-- `WrappingIO._flush`: move any buffered content to the target and reset
the buffer and `needs_clear`, then always flush the target. -/
def WrappingIO.flushBuffer (w : WrappingIO) : WrappingIO :=
  let w :=
    if w.buffer ≠ "" then
      { w with
        target := { w.target with written := w.target.written ++ w.buffer },
        buffer := "", needs_clear := false }
    else w
  WrappingIO.flush_target w

/-- The process-wide `StreamWrapper` singleton state.  `stdout`/`stderr` hold
`some w` when the corresponding `sys` handle currently points at the
`WrappingIO` `w`, and `none` when the original handle is in place. -/
structure StreamWrapper where
  original_stdout : Target
  original_stderr : Target
  stdout : Option WrappingIO
  stderr : Option WrappingIO
  wrapped_stdout : ℕ
  wrapped_stderr : ℕ
  wrapped_excepthook : ℕ
  excepthook_wrapped : Bool
  capturing : ℤ
  listeners : List ℕ

/-- `StreamWrapper.__init__` with the `WRAP_STDOUT` and `WRAP_STDERR`
environment flags unset. -/
def StreamWrapper.init (out err : Target) : StreamWrapper :=
  ⟨out, err, none, none, 0, 0, 0, false, 0, []⟩

/-- `StreamWrapper.wrap_excepthook`: on first use, install the wrapper hook
and count the wrap. -/
def StreamWrapper.wrap_excepthook (s : StreamWrapper) : StreamWrapper :=
  if s.wrapped_excepthook = 0 then
    { s with wrapped_excepthook := s.wrapped_excepthook + 1,
             excepthook_wrapped := true }
  else s

/-- `StreamWrapper.wrap_stdout`: wrap the exception hook, install a fresh
`WrappingIO` over the original stdout on the zero-to-one transition only, and
count the wrap. -/
def StreamWrapper.wrap_stdout (s : StreamWrapper) : StreamWrapper :=
  let s := s.wrap_excepthook
  let s :=
    if s.wrapped_stdout = 0 then
      { s with stdout := some ( WrappingIO.init s.original_stdout s.listeners) }
    else s
  { s with wrapped_stdout := s.wrapped_stdout + 1 }

/-- `StreamWrapper.unwrap_stdout`: decrement the count while above one,
otherwise restore the original stdout handle and zero the count. -/
def StreamWrapper.unwrap_stdout (s : StreamWrapper) : StreamWrapper :=
  if 1 < s.wrapped_stdout then { s with wrapped_stdout := s.wrapped_stdout - 1 }
  else { s with stdout := none, wrapped_stdout := 0 }

/-- `StreamWrapper.flush`: flush each stream that is wrapped (the
`io.UnsupportedOperation` fallback never fires here: the modelled targets
always support flushing). -/
def StreamWrapper.flush (s : StreamWrapper) : StreamWrapper :=
  let s :=
    if s.wrapped_stdout ≠ 0 then
      match s.stdout with
      | some w => { s with stdout := some w.flushBuffer }
      | none => s
    else s
  if s.wrapped_stderr ≠ 0 then
    match s.stderr with
    | some w => { s with stderr := some w.flushBuffer }
    | none => s
  else s

/-- `StreamWrapper.excepthook(exc_type, exc_value, exc_traceback)`: call the
original hook on the same three arguments, then flush.  The original hook is
modelled as an arbitrary state transformer invoked on the exception triple. -/
def StreamWrapper.excepthook {α : Type}
    (original : α → α → α → StreamWrapper → StreamWrapper)
    (s : StreamWrapper) (exc_type exc_value exc_traceback : α) : StreamWrapper :=
  StreamWrapper.flush (original exc_type exc_value exc_traceback s)

/-- The default interpreter excepthook, for the consequence in C5: it formats
the traceback and writes it to the current stderr handle (the wrapper, while
stderr is wrapped). -/
def tracebackHook (format : String → String → String → String) :
    String → String → String → StreamWrapper → StreamWrapper :=
  fun t v tb s =>
    match s.stderr with
    | some w => { s with stderr := some (w.write (format t v tb)).1 }
    | none =>
      { s with original_stderr :=
          { s.original_stderr with
            written := s.original_stderr.written ++ format t v tb } }

/-- A registered-style named color with xterm index 1 (truthy). -/
def red1 : Color := ⟨⟨255, 0, 0⟩, some ⟨0, 1/2, 1⟩, some "red", some 1⟩

/-- A registered-style named color with xterm index 2 (truthy). -/
def green2 : Color := ⟨⟨0, 128, 0⟩, some ⟨1/3, 1/4, 1⟩, some "green", some 2⟩

/-- A two-color gradient over the two named colors, with the default
`Colors.interpolate` interpolation function. -/
def gradient12 : ColorGradient := ⟨[red1, green2], by simp, some Colors.interpolate⟩

/-- A single-color gradient. -/
def gradient1 : ColorGradient := ⟨[red1], by simp, some Colors.interpolate⟩

/-! ## Theorems -/

/-- C9: `no_color` strips ANSI escape sequences from both text and byte
strings and raises a type error exactly on anything else: stripping the
sample red-colored string yields the bare word and `len_color` of it is 3,
while any text or byte string comes back without an error. -/
theorem C9_no_color_strips_and_type_errors :
    no_color (.str "\x1b[31mred\x1b[0m") = .ok (.str "red") ∧
    len_color (.str "\x1b[31mred\x1b[0m") = .ok 3 ∧
    (∀ s : String, ∃ r, no_color (.str s) = .ok r) ∧
    (∀ b : List Char, ∃ r, no_color (.bytes b) = .ok r) ∧
    no_color .other = .error "TypeError" ∧
    len_color .other = .error "TypeError" :=
  ⟨rfl, rfl, fun _ => ⟨_, rfl⟩, fun _ => ⟨_, rfl⟩, rfl, rfl⟩

/-- C2 counterexample: for the gradient over two named colors with distinct
truthy xterm indices, the color at 0.3 still produces the payload `5;1`
under `ColorSupport.NONE`, not the null payload the claim demands: the
truthy-xterm branch of `Color.ansi` fires before the no-support fallthrough. -/
theorem C2_counterexample :
    (gradient12.get_color (.num (3/10))).map (Color.ansi .NONE) =
      some (some "5;1") := by
  decide

/-- C2 (amended): under `ColorSupport.NONE` the ansi payload is null exactly
when the color carries no truthy xterm index; with a truthy xterm index `n`
the payload is `5;n` even though the support level is NONE. -/
theorem C2_ansi_none_iff_xterm_falsy (c : Color) :
    (Color.ansi .NONE c = none ↔ intTruthy c.xterm = false) ∧
    (∀ n : ℤ, c.xterm = some n → n ≠ 0 →
      Color.ansi .NONE c = some ("5;" ++ toString n)) := by
  constructor
  · unfold Color.ansi
    by_cases h : intTruthy c.xterm = true
    · simp [h]
    · simp [h]
  · intro n hn hnz
    have h : intTruthy (some n) = true := by simp [intTruthy, hnz]
    unfold Color.ansi
    simp [hn, h]

/-- Witness for the amended C2 statement at the first gradient color. -/
theorem C2_ansi_none_iff_xterm_falsy_witness :
    Color.ansi .NONE red1 = some ("5;" ++ toString (1 : ℤ)) :=
  (C2_ansi_none_iff_xterm_falsy red1).2 1 rfl (by decide)

/-- C10: when a color's ansi payload resolves to null (support NONE and no
truthy xterm index), the foreground SGR wrapper does not omit the color
argument; `str(None)` is interpolated literally, producing the exact start
sequence with the text `None` in it. -/
theorem C10_sgr_interpolates_literal_none (c : Color) (text : String)
    (hx : intTruthy c.xterm = false) :
    Color.ansi .NONE c = none ∧
    Color.fg c .NONE text = "\x1b[38;Nonem" ++ text ++ "\x1b[39m" := by
  have hansi : Color.ansi .NONE c = none := by
    unfold Color.ansi
    simp [hx]
  refine ⟨hansi, ?_⟩
  show CSI.call "m" [] [toString (38 : ℤ), pyStr (Color.ansi .NONE c)] ++ text ++
      CSI.call "m" [] [toString (39 : ℤ)] = _
  rw [hansi]
  rfl

/-- Witness for C10 at a color without xterm index. -/
theorem C10_sgr_interpolates_literal_none_witness :
    Color.fg ⟨⟨1, 2, 3⟩, none, none, none⟩ .NONE "T" =
      "\x1b[38;Nonem" ++ "T" ++ "\x1b[39m" :=
  (C10_sgr_interpolates_literal_none ⟨⟨1, 2, 3⟩, none, none, none⟩ "T" rfl).2

/-- Any variable scan that reaches a truecolor marker ends with truecolor
support, regardless of what was accumulated before or comes after. -/
theorem scanVars_append_break (l rest : List (Option String)) (s : ColorSupport)
    (value : String) (hv : value = "truecolor" ∨ value = "24bit") :
    ColorSupport.scanVars s (l ++ some value :: rest) = .XTERM_TRUECOLOR := by
  induction l generalizing s with
  | nil =>
    simp only [List.nil_append, ColorSupport.scanVars]
    rw [if_pos hv]
  | cons v l ih =>
    cases v with
    | none =>
      simpa only [List.cons_append, ColorSupport.scanVars] using ih s
    | some value2 =>
      simp only [List.cons_append, ColorSupport.scanVars]
      split_ifs <;> first | rfl | exact ih _

/-- C4: with no Jupyter markers set, the environment scan honours a
truecolor marker in `COLORTERM` regardless of `TERM` (or in `FORCE_COLOR`
regardless of everything later), a substring `256` in `TERM` raises the
result to 256-color support, an exact `xterm` raises it to 16-color
support, and with no signal at all the result is NONE. -/
theorem C4_from_env_rules (env : Env)
    (hj1 : strTruthy (env "JUPYTER_COLUMNS") = false)
    (hj2 : strTruthy (env "JUPYTER_LINES") = false) :
    (env "COLORTERM" = some "truecolor" →
      ColorSupport.from_env env = .XTERM_TRUECOLOR) ∧
    ((env "FORCE_COLOR" = some "truecolor" ∨ env "FORCE_COLOR" = some "24bit") →
      ColorSupport.from_env env = .XTERM_TRUECOLOR) ∧
    (env "FORCE_COLOR" = none → env "PROGRESSBAR_ENABLE_COLORS" = none →
      env "COLORTERM" = none → ∀ value : String, env "TERM" = some value →
      containsSub "256".data value.data = true →
      ColorSupport.from_env env = .XTERM_256) ∧
    (env "FORCE_COLOR" = none → env "PROGRESSBAR_ENABLE_COLORS" = none →
      env "COLORTERM" = none → env "TERM" = some "xterm-256color" →
      ColorSupport.from_env env = .XTERM_256) ∧
    (env "FORCE_COLOR" = none → env "PROGRESSBAR_ENABLE_COLORS" = none →
      env "COLORTERM" = none → env "TERM" = some "xterm" →
      ColorSupport.from_env env = .XTERM) ∧
    (env "FORCE_COLOR" = none → env "PROGRESSBAR_ENABLE_COLORS" = none →
      env "COLORTERM" = none → env "TERM" = none →
      ColorSupport.from_env env = .NONE) := by
  have hjup : ¬(strTruthy (env "JUPYTER_COLUMNS") = true ∨
      strTruthy (env "JUPYTER_LINES") = true) := by
    simp [hj1, hj2]
  refine ⟨?_, ?_, ?_, ?_, ?_, ?_⟩
  · intro hct
    unfold ColorSupport.from_env
    rw [if_neg hjup, hct]
    exact scanVars_append_break
      [env "FORCE_COLOR", env "PROGRESSBAR_ENABLE_COLORS"] [env "TERM"] _
      "truecolor" (Or.inl rfl)
  · intro hfc
    unfold ColorSupport.from_env
    rw [if_neg hjup]
    rcases hfc with h | h
    · rw [h]
      exact scanVars_append_break [] _ _ "truecolor" (Or.inl rfl)
    · rw [h]
      exact scanVars_append_break [] _ _ "24bit" (Or.inr rfl)
  · intro h1 h2 h3 value h4 h256
    have hne1 : ¬(value = "truecolor" ∨ value = "24bit") := by
      rintro (rfl | rfl) <;> exact absurd h256 (by decide)
    unfold ColorSupport.from_env
    rw [if_neg hjup, h1, h2, h3, h4]
    simp only [ColorSupport.scanVars]
    rw [if_neg hne1, if_pos h256]
    rfl
  · intro h1 h2 h3 h4
    unfold ColorSupport.from_env
    rw [if_neg hjup, h1, h2, h3, h4]
    decide
  · intro h1 h2 h3 h4
    unfold ColorSupport.from_env
    rw [if_neg hjup, h1, h2, h3, h4]
    decide
  · intro h1 h2 h3 h4
    unfold ColorSupport.from_env
    rw [if_neg hjup, h1, h2, h3, h4]
    decide

/-- Witness for C4 on two concrete environments: `COLORTERM=truecolor` with a
conflicting `TERM`, and a bare `TERM=xterm-256color`. -/
theorem C4_from_env_rules_witness :
    ColorSupport.from_env
      (fun k => if k = "COLORTERM" then some "truecolor"
                else if k = "TERM" then some "xterm-256color" else none) =
      .XTERM_TRUECOLOR ∧
    ColorSupport.from_env
      (fun k => if k = "TERM" then some "xterm-256color" else none) =
      .XTERM_256 :=
  ⟨(C4_from_env_rules _ (by decide) (by decide)).1 (by decide),
   (C4_from_env_rules _ (by decide) (by decide)).2.2.2.1 (by decide) (by decide)
     (by decide) (by decide)⟩

/-- C6: `ColorGradient.get_color` clamps at the ends and degenerates for one
color: the undefined and unknown-length sentinels and any value at most 0
give the first color, any value at least 1 gives the last color, and a
single-color gradient gives its color for every value. -/
theorem C6_gradient_clamps_and_degenerates (g : ColorGradient) :
    g.get_color .undefined = some (g.colors.head g.colors_ne) ∧
    g.get_color .unknownLength = some (g.colors.head g.colors_ne) ∧
    (∀ v : ℚ, v ≤ 0 → g.get_color (.num v) = some (g.colors.head g.colors_ne)) ∧
    (∀ v : ℚ, 1 ≤ v → g.get_color (.num v) = some (g.colors.getLast g.colors_ne)) ∧
    (∀ c : Color, g.colors = [c] → ∀ v : PValue, g.get_color v = some c) := by
  refine ⟨rfl, rfl, ?_, ?_, ?_⟩
  · intro v hv
    simp [ColorGradient.get_color, hv]
  · intro v hv
    have h0 : ¬v ≤ 0 := by linarith
    simp [ColorGradient.get_color, h0, hv]
  · intro c hc v
    cases v with
    | undefined => simp [ColorGradient.get_color, hc]
    | unknownLength => simp [ColorGradient.get_color, hc]
    | num v =>
      by_cases h0 : v ≤ 0
      · simp [ColorGradient.get_color, hc, h0]
      · by_cases h1 : 1 ≤ v
        · simp [ColorGradient.get_color, hc, h0, h1]
        · simp [ColorGradient.get_color, hc, h0, h1]

/-- Witness for C6 on the two-color and the single-color gradients. -/
theorem C6_gradient_clamps_and_degenerates_witness :
    gradient12.get_color (.num 0) = some red1 ∧
    gradient12.get_color (.num 1) = some green2 ∧
    gradient1.get_color (.num (1/2)) = some red1 :=
  ⟨((C6_gradient_clamps_and_degenerates gradient12).2.2.1 0 le_rfl).trans
      (by decide),
   ((C6_gradient_clamps_and_degenerates gradient12).2.2.2.1 1 le_rfl).trans
      (by decide),
   (C6_gradient_clamps_and_degenerates gradient1).2.2.2.2 red1 rfl
      (.num (1/2))⟩

/-- Truncation toward zero is the identity on integers. -/
theorem pyInt_intCast (n : ℤ) : pyInt (n : ℚ) = n := by
  unfold pyInt
  split <;> simp

/-- Channel-wise linear interpolation at step 0 returns the start value. -/
theorem rgb_interpolate_zero (x y : RGB) : RGB.interpolate x y 0 = x := by
  unfold RGB.interpolate
  simp [pyInt_intCast]

/-- Channel-wise linear interpolation at step 1 returns the end value. -/
theorem rgb_interpolate_one (x y : RGB) : RGB.interpolate x y 1 = y := by
  unfold RGB.interpolate
  have h : ∀ m n : ℤ, ((m : ℚ) + ((n : ℚ) - (m : ℚ)) * 1) = (n : ℚ) := by
    intro m n
    ring
  simp [h, pyInt_intCast]

/-- Component-wise linear interpolation at step 0 returns the start value. -/
theorem hls_interpolate_zero (x y : HLS) : HLS.interpolate x y 0 = x := by
  unfold HLS.interpolate
  simp

/-- Component-wise linear interpolation at step 1 returns the end value. -/
theorem hls_interpolate_one (x y : HLS) : HLS.interpolate x y 1 = y := by
  unfold HLS.interpolate
  rw [show x.hue + (y.hue - x.hue) * 1 = y.hue by ring,
    show x.lightness + (y.lightness - x.lightness) * 1 = y.lightness by ring,
    show x.saturation + (y.saturation - x.saturation) * 1 = y.saturation by ring]

/-- C7: `Color.interpolate` boundary and tie-break behaviour: at step 0 the
whole start color comes back and at step 1 the whole end color (the rgb
channels are integers, so truncation is exact at the ends); the name and
xterm of the result come from the start color for steps below one half and
from the end color from one half on, so at exactly one half they are the end
color's. -/
theorem C7_color_interpolate_bounds (a b : Color) (ha hb : HLS)
    (h1 : a.hls = some ha) (h2 : b.hls = some hb) :
    a.interpolate b 0 = some a ∧
    a.interpolate b 1 = some b ∧
    (∀ step : ℚ, step < 1/2 →
      a.interpolate b step = some ⟨a.rgb.interpolate b.rgb step,
        some (ha.interpolate hb step), a.name, a.xterm⟩) ∧
    (∀ step : ℚ, 1/2 ≤ step →
      a.interpolate b step = some ⟨a.rgb.interpolate b.rgb step,
        some (ha.interpolate hb step), b.name, b.xterm⟩) := by
  have hred : ∀ step : ℚ, a.interpolate b step =
      some ⟨a.rgb.interpolate b.rgb step, some (ha.interpolate hb step),
        if step < 1/2 then a.name else b.name,
        if step < 1/2 then a.xterm else b.xterm⟩ := by
    intro step
    unfold Color.interpolate
    rw [h1, h2]
  refine ⟨?_, ?_, ?_, ?_⟩
  · rw [hred 0, rgb_interpolate_zero, hls_interpolate_zero,
      if_pos (by norm_num : (0 : ℚ) < 1/2), if_pos (by norm_num : (0 : ℚ) < 1/2),
      ← h1]
  · rw [hred 1, rgb_interpolate_one, hls_interpolate_one,
      if_neg (by norm_num : ¬(1 : ℚ) < 1/2), if_neg (by norm_num : ¬(1 : ℚ) < 1/2),
      ← h2]
  · intro step hstep
    rw [hred step, if_pos hstep, if_pos hstep]
  · intro step hstep
    rw [hred step, if_neg (not_lt.mpr hstep), if_neg (not_lt.mpr hstep)]

/-- Witness for C7 at the two named colors, including the midpoint. -/
theorem C7_color_interpolate_bounds_witness :
    red1.interpolate green2 0 = some red1 ∧
    red1.interpolate green2 1 = some green2 ∧
    red1.interpolate green2 (1/2) = some ⟨RGB.interpolate red1.rgb green2.rgb (1/2),
      some (HLS.interpolate ⟨0, 1/2, 1⟩ ⟨1/3, 1/4, 1⟩ (1/2)),
      green2.name, green2.xterm⟩ := by
  have h := C7_color_interpolate_bounds red1 green2 ⟨0, 1/2, 1⟩ ⟨1/3, 1/4, 1⟩ rfl rfl
  exact ⟨h.1, h.2.1, h.2.2.2 (1/2) le_rfl⟩

/-- C8: `apply_colors` is the identity when neither foreground nor background
is given, and otherwise, with a percentage present and both resolving to
colors, wraps the text in the foreground style first and the background
style second, leaving the background sequences outermost. -/
theorem C8_apply_colors_order :
    (∀ (support : ColorSupport) (text : String) (percentage : Option ℚ)
      (fg_none bg_none : Option Color),
      apply_colors support text percentage .none .none fg_none bg_none =
        some text) ∧
    (∀ (support : ColorSupport) (text : String) (p : ℚ) (fg bg : OptionalColor)
      (fg_none bg_none : Option Color) (cf cb : Color),
      get_color (p * (1/100)) fg = some (some cf) →
      get_color (p * (1/100)) bg = some (some cb) →
      apply_colors support text (some p) fg bg fg_none bg_none =
        some (Color.bg cb support (Color.fg cf support text))) := by
  constructor
  · intro support text percentage fg_none bg_none
    rfl
  · intro support text p fg bg fg_none bg_none cf cb h1 h2
    cases fg with
    | none => simp [get_color] at h1
    | color c =>
      obtain rfl : c = cf := by
        simpa [get_color] using h1
      cases bg with
      | none => simp [get_color] at h2
      | color d =>
        obtain rfl : d = cb := by
          simpa [get_color] using h2
        rfl
      | gradient gd =>
        simp only [get_color] at h2
        rw [Option.map_eq_some'] at h2
        obtain ⟨y, hy, hye⟩ := h2
        obtain rfl := Option.some.inj hye
        simp only [apply_colors, get_color]
        rw [hy]
        rfl
    | gradient gf =>
      simp only [get_color] at h1
      rw [Option.map_eq_some'] at h1
      obtain ⟨x, hx, hxe⟩ := h1
      obtain rfl := Option.some.inj hxe
      cases bg with
      | none => simp [get_color] at h2
      | color d =>
        obtain rfl : d = cb := by
          simpa [get_color] using h2
        simp only [apply_colors, get_color]
        rw [hx]
        rfl
      | gradient gd =>
        simp only [get_color] at h2
        rw [Option.map_eq_some'] at h2
        obtain ⟨y, hy, hye⟩ := h2
        obtain rfl := Option.some.inj hye
        simp only [apply_colors, get_color]
        rw [hx, hy]
        rfl

/-- Witness for C8 with two fixed colors at fifty percent. -/
theorem C8_apply_colors_order_witness :
    apply_colors .NONE "x" (some 50) (.color red1) (.color green2) none none =
      some (Color.bg green2 .NONE (Color.fg red1 .NONE "x")) :=
  C8_apply_colors_order.2 .NONE "x" 50 (.color red1) (.color green2)
    none none red1 green2 rfl rfl

/-- C1: `WrappingIO.write` while not capturing passes the chunk straight
through to the target (buffer untouched, no listener called) and flushes the
open target exactly when the chunk holds a newline; while capturing it
appends to the buffer only (target untouched), and a newline sets
`needs_clear` and calls `update()` once on every registered listener (the
listener set holds no duplicates). -/
theorem C1_wrappingio_write (w : WrappingIO) (s : String) :
    (w.capturing = false →
      (w.write s).1.buffer = w.buffer ∧
      (w.write s).1.target.written = w.target.written ++ s ∧
      (w.write s).2.2 = [] ∧
      (hasNewline s = true → w.target.closed = false →
        (w.write s).1.target.flushCount = w.target.flushCount + 1) ∧
      (hasNewline s = false →
        (w.write s).1.target.flushCount = w.target.flushCount)) ∧
    (w.capturing = true →
      (w.write s).1.buffer = w.buffer ++ s ∧
      (w.write s).1.target = w.target ∧
      (hasNewline s = true →
        (w.write s).1.needs_clear = true ∧
        (w.write s).2.2 = w.listeners ∧
        (w.listeners.Nodup →
          ∀ l ∈ w.listeners, ((w.write s).2.2).count l = 1))) := by
  constructor
  · intro hcap
    by_cases hnl : hasNewline s = true
    · by_cases hcl : w.target.closed = false
      · simp [ WrappingIO.write, WrappingIO.flush_target, Target.flush, hcap,
          hnl, hcl]
      · simp [ WrappingIO.write, WrappingIO.flush_target, hcap, hnl, hcl]
    · simp [ WrappingIO.write, hcap, hnl]
  · intro hcap
    by_cases hnl : hasNewline s = true
    · refine ⟨by simp [ WrappingIO.write, hcap, hnl],
        by simp [ WrappingIO.write, hcap, hnl], ?_⟩
      intro _
      have hev : (w.write s).2.2 = w.listeners := by
        simp [ WrappingIO.write, hcap, hnl]
      refine ⟨by simp [ WrappingIO.write, hcap, hnl], hev, ?_⟩
      intro hnodup l hl
      rw [hev]
      exact List.count_eq_one_of_mem hnodup hl
    · simp [ WrappingIO.write, hcap, hnl]

/-- Witness for C1: a capturing wrapper with one listener receiving a chunk
with a newline. -/
theorem C1_wrappingio_write_witness :
    (( WrappingIO.mk "b" ⟨"t", 1, false⟩ true [7] false).write "hi\n").1.buffer =
      "b" ++ "hi\n" ∧
    (( WrappingIO.mk "b" ⟨"t", 1, false⟩ true [7] false).write "hi\n").1.needs_clear =
      true ∧
    ((( WrappingIO.mk "b" ⟨"t", 1, false⟩ true [7] false).write "hi\n").2.2).count 7 =
      1 := by
  have h := (C1_wrappingio_write ( WrappingIO.mk "b" ⟨"t", 1, false⟩ true [7] false)
    "hi\n").2 rfl
  have h3 := h.2.2 (by decide)
  exact ⟨h.1, h3.1, h3.2.2 (by decide) 7 (by decide)⟩

/-- C3: wrapping stdout is reference-counted: from a fresh wrapper state, two
wraps leave the count at 2 and install a single wrapping stream; the first
unwrap only decrements (the handle is untouched for any state with a count
above 1), and the second unwrap restores the original handle and zeroes the
count, which happens exactly when the count is at most 1. -/
theorem C3_wrap_stdout_refcount (t_out t_err : Target) :
    ((StreamWrapper.init t_out t_err).wrap_stdout.wrap_stdout.wrapped_stdout = 2 ∧
      (StreamWrapper.init t_out t_err).wrap_stdout.stdout =
        some ( WrappingIO.init t_out []) ∧
      (StreamWrapper.init t_out t_err).wrap_stdout.wrap_stdout.unwrap_stdout.stdout =
        (StreamWrapper.init t_out t_err).wrap_stdout.stdout ∧
      (StreamWrapper.init t_out t_err).wrap_stdout.wrap_stdout.unwrap_stdout.wrapped_stdout =
        1 ∧
      (StreamWrapper.init t_out t_err).wrap_stdout.wrap_stdout.unwrap_stdout.unwrap_stdout.stdout =
        none ∧
      (StreamWrapper.init t_out t_err).wrap_stdout.wrap_stdout.unwrap_stdout.unwrap_stdout.wrapped_stdout =
        0) ∧
    (∀ s : StreamWrapper, 1 < s.wrapped_stdout →
      s.unwrap_stdout.stdout = s.stdout ∧
      s.unwrap_stdout.wrapped_stdout = s.wrapped_stdout - 1) ∧
    (∀ s : StreamWrapper, s.wrapped_stdout ≤ 1 →
      s.unwrap_stdout.stdout = none ∧ s.unwrap_stdout.wrapped_stdout = 0) := by
  refine ⟨⟨rfl, rfl, rfl, rfl, rfl, rfl⟩, ?_, ?_⟩
  · intro s h
    unfold StreamWrapper.unwrap_stdout
    rw [if_pos h]
    exact ⟨rfl, rfl⟩
  · intro s h
    have h1 : ¬1 < s.wrapped_stdout := by omega
    unfold StreamWrapper.unwrap_stdout
    rw [if_neg h1]
    exact ⟨rfl, rfl⟩

/-- Witness for C3 at empty targets and at a state with count 2. -/
theorem C3_wrap_stdout_refcount_witness :
    (StreamWrapper.init ⟨"", 0, false⟩ ⟨"", 0, false⟩).wrap_stdout.wrap_stdout.unwrap_stdout.stdout =
      some ( WrappingIO.init ⟨"", 0, false⟩ []) ∧
    (StreamWrapper.mk ⟨"", 0, false⟩ ⟨"", 0, false⟩
        (some ( WrappingIO.init ⟨"", 0, false⟩ [])) none 2 0 1 true 0 []).unwrap_stdout.stdout =
      some ( WrappingIO.init ⟨"", 0, false⟩ []) := by
  have h := C3_wrap_stdout_refcount ⟨"", 0, false⟩ ⟨"", 0, false⟩
  refine ⟨h.1.2.2.1.trans h.1.2.1, ?_⟩
  exact (h.2.1 _ (by decide)).1.trans rfl

/-- `StreamWrapper.flush` sends a wrapped stderr through `_flush`, whatever
the stdout half does. -/
theorem StreamWrapper.flush_stderr_eq (s : StreamWrapper) (w : WrappingIO)
    (hs : s.stderr = some w) (hn : s.wrapped_stderr ≠ 0) :
    s.flush.stderr = some w.flushBuffer := by
  unfold StreamWrapper.flush
  by_cases h1 : s.wrapped_stdout = 0
  · simp [h1, hs, hn]
  · cases h2 : s.stdout with
    | none => simp [h1, h2, hs, hn]
    | some w0 => simp [h1, h2, hs, hn]

/-- `WrappingIO._flush` appends the buffered content to the target and empties
the buffer. -/
theorem WrappingIO.flushBuffer_spec (w : WrappingIO) :
    w.flushBuffer.target.written = w.target.written ++ w.buffer ∧
    w.flushBuffer.buffer = "" := by
  unfold WrappingIO.flushBuffer WrappingIO.flush_target Target.flush
  by_cases hb : w.buffer = ""
  · by_cases hc : w.target.closed = false <;> simp [hb, hc]
  · by_cases hc : w.target.closed = false <;> simp [hb, hc]

/-- `WrappingIO.write` on a non-capturing wrapper leaves the buffer alone and
appends the chunk to the target content. -/
theorem WrappingIO.write_not_capturing (w : WrappingIO) (s : String)
    (hcap : w.capturing = false) :
    (w.write s).1.buffer = w.buffer ∧
    (w.write s).1.target.written = w.target.written ++ s := by
  by_cases hnl : hasNewline s = true
  · by_cases hcl : w.target.closed = false
    · simp [ WrappingIO.write, WrappingIO.flush_target, Target.flush, hcap,
        hnl, hcl]
    · simp [ WrappingIO.write, WrappingIO.flush_target, hcap, hnl, hcl]
  · simp [ WrappingIO.write, hcap, hnl]

/-- C5: `StreamWrapper.excepthook` calls the original hook on the very same
three arguments and then flushes, unconditionally; consequently, with the
default traceback-printing hook and a wrapped, non-capturing stderr, the
formatted traceback lands in the real stream first and the buffered content
right after it, and the buffer is emptied. -/
theorem C5_excepthook_calls_original_then_flushes {α : Type}
    (original : α → α → α → StreamWrapper → StreamWrapper)
    (s : StreamWrapper) (t v tb : α) :
    StreamWrapper.excepthook original s t v tb =
      StreamWrapper.flush (original t v tb s) ∧
    (∀ (fmt : String → String → String → String) (t2 v2 tb2 : String)
      (w : WrappingIO),
      s.stderr = some w → s.wrapped_stderr ≠ 0 → w.capturing = false →
      ∃ w2 : WrappingIO,
        (StreamWrapper.excepthook (tracebackHook fmt) s t2 v2 tb2).stderr =
          some w2 ∧
        w2.target.written = w.target.written ++ fmt t2 v2 tb2 ++ w.buffer ∧
        w2.buffer = "") := by
  refine ⟨rfl, ?_⟩
  intro fmt t2 v2 tb2 w hs hnz hcap
  have hth : tracebackHook fmt t2 v2 tb2 s =
      { s with stderr := some ((w.write (fmt t2 v2 tb2)).1) } := by
    unfold tracebackHook
    rw [hs]
  have hwrite := WrappingIO.write_not_capturing w (fmt t2 v2 tb2) hcap
  refine ⟨((w.write (fmt t2 v2 tb2)).1).flushBuffer, ?_, ?_, ?_⟩
  · show (StreamWrapper.flush (tracebackHook fmt t2 v2 tb2 s)).stderr = _
    rw [hth]
    exact StreamWrapper.flush_stderr_eq _ _ rfl hnz
  · rw [( WrappingIO.flushBuffer_spec _).1, hwrite.1, hwrite.2]
  · exact ( WrappingIO.flushBuffer_spec _).2

/-- Witness for C5: a wrapped stderr holding `buf` in its buffer, a hook that
prints `TB`. -/
theorem C5_excepthook_calls_original_then_flushes_witness :
    ∃ w2 : WrappingIO,
      (StreamWrapper.excepthook (tracebackHook fun t _ _ => t)
        (StreamWrapper.mk ⟨"", 0, false⟩ ⟨"E", 0, false⟩ none
          (some ( WrappingIO.mk "buf" ⟨"E", 0, false⟩ false [] false)) 0 1 1 true 0 [])
        "TB" "v" "tb").stderr = some w2 ∧
      w2.target.written = "E" ++ "TB" ++ "buf" ∧
      w2.buffer = "" := by
  have h := (C5_excepthook_calls_original_then_flushes (tracebackHook fun t _ _ => t)
    (StreamWrapper.mk ⟨"", 0, false⟩ ⟨"E", 0, false⟩ none
      (some ( WrappingIO.mk "buf" ⟨"E", 0, false⟩ false [] false)) 0 1 1 true 0 [])
    "TB" "v" "tb").2 (fun t _ _ => t) "TB" "v" "tb"
    ( WrappingIO.mk "buf" ⟨"E", 0, false⟩ false [] false) rfl (by decide) rfl
  exact h

end Progressbar
